import Mathlib

/-
Verification of the utilization-sampling core described by the repository
specification, together with the notebook's `create_model` function.

The notebook (src/notebooks/estimating_your_training_utilization.ipynb)
itself holds only the callers of the measurement procedure: it calls
`psutil.cpu_percent(interval=None)` to reset the accounting baseline,
runs training, then queries `psutil.cpu_percent(interval=None, percpu=True)`
and `psutil.cpu_percent(interval=None)`.  The reusable sampler component
(`begin_window` / `sample` / `run_with_measurement`) is therefore modelled
from the specification; `create_model` is translated from the notebook code.

Percentages are modelled as rational numbers.
-/

namespace UtilizationSampler

/-- Modelled from the spec: the error taxonomy of §7.  `MeasurementError` —
the host utilization API is unavailable, or `sample` was called without an
open window. -/
inductive MeasurementError
  | noOpenWindow
  | apiUnavailable
deriving DecidableEq, Repr

/-- Modelled from the spec: `MeasurementWindow` is an ephemeral marker with
no externally visible attributes. -/
inductive MeasurementWindow
  | mk
deriving DecidableEq, Repr

/-- Modelled from the spec: a `UtilizationSample` record produced by one
measurement cycle, with an ordered per-unit sequence of percentages and a
single aggregate percentage. -/
structure UtilizationSample where
  per_resource_percentages : List ℚ
  aggregate_percentage : ℚ
deriving DecidableEq, Repr

/-- Modelled from the spec: the host's utilization counters are shared,
host-global state (§5), consisting of a fixed number of detected resource
units, a per-unit busy-percentage counter accumulated since the last
baseline reset, and a flag for whether the host utilization API is
available at all (§7). -/
structure HostState where
  units : Nat
  busy : List ℚ
  available : Bool
deriving DecidableEq, Repr

/-- Well-formed host counters: one counter per detected resource unit, each
a percentage in [0, 100]. -/
def HostState.WF (h : HostState) : Prop :=
  h.busy.length = h.units ∧ ∀ x ∈ h.busy, 0 ≤ x ∧ x ≤ 100

instance (h : HostState) : Decidable h.WF := by
  unfold HostState.WF; infer_instance

/-- Modelled from the spec: the OS-level `reset-and-mark-baseline()` call
(§6).  It discards all previously accumulated statistics and starts a new
accumulation period. -/
def resetBaseline (h : HostState) : HostState :=
  { h with busy := List.replicate h.units 0 }

/-- Modelled from the spec: `query-percent-since-baseline(per_unit: true)`
(§6), the per-unit breakdown since the last reset. -/
def queryPerUnit (h : HostState) : List ℚ :=
  h.busy

/-- Modelled from the spec: `query-percent-since-baseline(per_unit: false)`
(§6), the average utilization across all monitored resource units. -/
def queryAggregate (h : HostState) : ℚ :=
  h.busy.sum / (h.busy.length : ℚ)

/-- Modelled from the spec: the sampler's two-state machine of §4.1,
`Idle -> WindowOpen` on `begin_window`, back to `Idle` on `sample`. -/
inductive SamplerState
  | Idle
  | WindowOpen
deriving DecidableEq, Repr

/-- Modelled from the spec: the sampler instance; its only state is the
position in the two-state machine. -/
structure Sampler where
  state : SamplerState
deriving DecidableEq, Repr

/-- A freshly created sampler has no open window. -/
def Sampler.init : Sampler :=
  ⟨SamplerState.Idle⟩

/-- Modelled from the spec: `begin_window() -> MeasurementWindow` resets the
utilization accounting baseline and opens a measurement window.  Issuing it
discards prior accumulated statistics regardless of the previous sampler
state. -/
def begin_window (s : Sampler) (h : HostState) :
    MeasurementWindow × Sampler × HostState :=
  (MeasurementWindow.mk, ⟨SamplerState.WindowOpen⟩, resetBaseline h)

/-- Modelled from the spec: `sample(window) -> UtilizationSample` queries
cumulative utilization since `begin_window`, returning the per-unit
breakdown and the aggregate, and closes the window.  It fails with
`MeasurementError` if the host API is unavailable or if no window is open. -/
def sample (w : MeasurementWindow) (s : Sampler) (h : HostState) :
    Except MeasurementError (UtilizationSample × Sampler) :=
  if h.available = false then Except.error MeasurementError.apiUnavailable
  else
    match s.state with
    | SamplerState.Idle => Except.error MeasurementError.noOpenWindow
    | SamplerState.WindowOpen =>
        Except.ok (⟨queryPerUnit h, queryAggregate h⟩, ⟨SamplerState.Idle⟩)

/-- Percentages saturate at 100: busy time can never exceed elapsed time. -/
def clampPct (x : ℚ) : ℚ :=
  min x 100

/-- Modelled from the spec: the effect of a unit of work on the host's
counters.  `load` gives, per resource unit, the additional busy percentage
contributed during the window; counters saturate at 100. -/
def applyWork (load : List ℚ) (h : HostState) : HostState :=
  { h with
    busy := (List.range h.units).map
      (fun i => clampPct (h.busy.getD i 0 + load.getD i 0)) }

/-- Modelled from the spec: a unit of work, treated as an opaque callable
that returns a result or raises a work-specific error, and whose execution
contributes busy time (`load`) to the host counters. -/
structure Work (ε α : Type) where
  result : Except ε α
  load : List ℚ

/-- Modelled from the spec: errors escaping `run_with_measurement` are
either the work's own error, propagated unchanged, or a distinct
`MeasurementError` from the measurement step (§7). -/
inductive RunError (ε : Type)
  | workErr (e : ε)
  | measErr (m : MeasurementError)

/-- Modelled from the spec: `run_with_measurement(work)` calls
`begin_window`, executes `work` exactly once, then calls `sample`,
returning both the work's result and the measurement.  A work error is
propagated unchanged; a measurement failure surfaces as a
`MeasurementError`. -/
def run_with_measurement {ε α : Type} (w : Work ε α) (s : Sampler)
    (h : HostState) :
    Except (RunError ε) (α × UtilizationSample) × Sampler × HostState :=
  match begin_window s h with
  | (win, s1, h1) =>
    let h2 := applyWork w.load h1
    match w.result with
    | Except.error e => (Except.error (RunError.workErr e), s1, h2)
    | Except.ok v =>
        match sample win s1 h2 with
        | Except.error m => (Except.error (RunError.measErr m), s1, h2)
        | Except.ok (u, s2) => (Except.ok (v, u), s2, h2)

/-- One strictly paired measurement cycle: `begin_window`, then the work's
contribution to the counters, then `sample`.  This is the shape of each
cycle in the notebook (reset checkpoint, `model.fit`, query). -/
def measureCycle (load : List ℚ) (s : Sampler) (h : HostState) :
    Except MeasurementError (UtilizationSample × Sampler) × HostState :=
  match begin_window s h with
  | (win, s1, h1) =>
    let h2 := applyWork load h1
    (sample win s1 h2, h2)

end UtilizationSampler

namespace KerasModel

/-- A Keras layer as used by the notebook: `Flatten(input_shape=(28, 28))`
or `Dense(units, activation)`. -/
inductive Layer
  | flatten (input_shape : Nat × Nat)
  | dense (units : Nat) (activation : String)
deriving DecidableEq, Repr

/-- A Keras `Sequential` model: the ordered list of added layers plus the
compilation settings recorded by `model.compile`. -/
structure Model where
  layers : List Layer
  compiled : Bool
  loss : String
  optimizer : String
  metrics : List String
deriving DecidableEq, Repr

/-- `Sequential()`: a fresh, empty, uncompiled model. -/
def Sequential.empty : Model :=
  { layers := [], compiled := false, loss := "", optimizer := "", metrics := [] }

/-- `model.add(layer)` appends a layer to the model. -/
def Model.add (m : Model) (l : Layer) : Model :=
  { m with layers := m.layers ++ [l] }

/-- `model.compile(loss=..., optimizer=..., metrics=...)`. -/
def Model.compile (m : Model) (loss optimizer : String)
    (metrics : List String) : Model :=
  { m with compiled := true, loss := loss, optimizer := optimizer,
           metrics := metrics }

/-- Translation of the notebook's `create_model(n_layers, n_nodes)`:
start a `Sequential` model, add `Flatten(input_shape=(28, 28))`, add
`n_layers` Dense layers of `n_nodes` relu units in a loop, add a final
Dense layer of 10 softmax units, then compile. -/
def create_model (n_layers n_nodes : Nat) : Model :=
  let model := Sequential.empty
  let model := model.add (Layer.flatten (28, 28))
  let model := (List.range n_layers).foldl
    (fun m _ => m.add (Layer.dense n_nodes "relu")) model
  let model := model.add (Layer.dense 10 "softmax")
  model.compile "sparse_categorical_crossentropy" "adam" ["acc"]

end KerasModel

namespace UtilizationSampler

lemma getD_replicate_zero : ∀ (n i : Nat), (List.replicate n (0 : ℚ)).getD i 0 = 0
  | 0, _ => by simp
  | _ + 1, 0 => by simp [List.replicate_succ]
  | n + 1, i + 1 => by
      simpa [List.replicate_succ] using getD_replicate_zero n i

lemma getD_nonneg : ∀ (l : List ℚ), (∀ x ∈ l, 0 ≤ x) → ∀ i, 0 ≤ l.getD i 0
  | [], _, _ => le_refl 0
  | a :: _, hl, 0 => by simpa using hl a (by simp)
  | _ :: l, hl, i + 1 => by
      simpa using getD_nonneg l (fun x hx => hl x (by simp [hx])) i

lemma mean_bounds (l : List ℚ) (hl : ∀ x ∈ l, 0 ≤ x ∧ x ≤ 100) :
    0 ≤ l.sum / (l.length : ℚ) ∧ l.sum / (l.length : ℚ) ≤ 100 := by
  rcases l with _ | ⟨a, l⟩
  · simp
  · have hlen : (0 : ℚ) < ((a :: l).length : ℚ) := by
      exact_mod_cast Nat.succ_pos l.length
    constructor
    · exact div_nonneg (List.sum_nonneg fun x hx => (hl x hx).1) hlen.le
    · rw [div_le_iff₀ hlen]
      calc (a :: l).sum ≤ (a :: l).length • (100 : ℚ) :=
            List.sum_le_card_nsmul _ _ fun x hx => (hl x hx).2
        _ = 100 * ((a :: l).length : ℚ) := by rw [nsmul_eq_mul]; ring

lemma sample_ok_shape (w : MeasurementWindow) (s : Sampler) (h : HostState)
    (u : UtilizationSample) (s2 : Sampler)
    (hok : sample w s h = Except.ok (u, s2)) :
    u.per_resource_percentages = h.busy ∧
    u.aggregate_percentage = h.busy.sum / (h.busy.length : ℚ) ∧
    s.state = SamplerState.WindowOpen ∧ s2 = ⟨SamplerState.Idle⟩ := by
  unfold sample at hok
  split at hok
  · exact absurd hok (by simp)
  · cases hs : s.state
    · rw [hs] at hok
      exact absurd hok (by simp)
    · rw [hs] at hok
      simp only [Except.ok.injEq, Prod.mk.injEq] at hok
      obtain ⟨hu, hs2⟩ := hok
      refine ⟨?_, ?_, rfl, hs2.symm⟩
      · rw [← hu]; rfl
      · rw [← hu]; rfl

lemma measureCycle_fst (load : List ℚ) (s : Sampler) (h : HostState) :
    (measureCycle load s h).1 =
      sample MeasurementWindow.mk ⟨SamplerState.WindowOpen⟩
        (applyWork load (resetBaseline h)) := rfl

lemma applyWork_resetBaseline_busy (load : List ℚ) (h : HostState) :
    (applyWork load (resetBaseline h)).busy =
      (List.range h.units).map (fun i => min (load.getD i 0) 100) := by
  unfold applyWork resetBaseline clampPct
  simp [getD_replicate_zero]

/-- Claim C1: every `UtilizationSample` produced by a measurement cycle (the
sample call at the end of a cycle) has an `aggregate_percentage` equal to
the arithmetic mean of its `per_resource_percentages` sequence, within a
tolerance of 1e-6. -/
theorem aggregate_is_mean_of_per_resource (load : List ℚ) (s : Sampler)
    (h : HostState) (u : UtilizationSample) (s2 : Sampler)
    (hok : (measureCycle load s h).1 = Except.ok (u, s2)) :
    |u.aggregate_percentage -
      u.per_resource_percentages.sum /
        (u.per_resource_percentages.length : ℚ)| ≤ 1 / 1000000 := by
  rw [measureCycle_fst] at hok
  obtain ⟨hper, hagg, -, -⟩ := sample_ok_shape _ _ _ _ _ hok
  rw [hper, hagg, sub_self, abs_zero]
  norm_num

/-- Claim C1 witness: a concrete measurement cycle on a two-unit host. -/
theorem aggregate_is_mean_of_per_resource_witness :
    |(UtilizationSample.mk [(50 : ℚ), 100] 75).aggregate_percentage -
      (UtilizationSample.mk [(50 : ℚ), 100] 75).per_resource_percentages.sum /
        ((UtilizationSample.mk [(50 : ℚ), 100] 75).per_resource_percentages.length :
          ℚ)| ≤ 1 / 1000000 :=
  aggregate_is_mean_of_per_resource [(50 : ℚ), 100] Sampler.init
    ⟨2, [0, 0], true⟩ (UtilizationSample.mk [(50 : ℚ), 100] 75)
    ⟨SamplerState.Idle⟩ (by norm_num [measureCycle, begin_window, sample, applyWork, resetBaseline, queryPerUnit, queryAggregate, clampPct, List.range_succ, List.getD_cons_zero, List.getD_cons_succ])

lemma sample_idle_error (w : MeasurementWindow) (s : Sampler) (h : HostState)
    (hs : s.state = SamplerState.Idle) :
    ∃ e : MeasurementError, sample w s h = Except.error e := by
  cases hav : h.available
  · exact ⟨MeasurementError.apiUnavailable, by simp [sample, hav]⟩
  · exact ⟨MeasurementError.noOpenWindow, by simp [sample, hav, hs]⟩

/-- Claim C2: calling `sample` while no measurement window is open fails
with a `MeasurementError` rather than returning a `UtilizationSample`. -/
theorem sample_without_window_fails (w : MeasurementWindow) (s : Sampler)
    (h : HostState) (hs : s.state = SamplerState.Idle) :
    ∃ e : MeasurementError, sample w s h = Except.error e :=
  sample_idle_error w s h hs

/-- Claim C2 witness: a fresh sampler on an available one-unit host. -/
theorem sample_without_window_fails_witness :
    ∃ e : MeasurementError,
      sample MeasurementWindow.mk Sampler.init ⟨1, [(0 : ℚ)], true⟩ =
        Except.error e :=
  sample_without_window_fails MeasurementWindow.mk Sampler.init
    ⟨1, [(0 : ℚ)], true⟩ rfl

/-- Claim C6: every element of a returned sample's
`per_resource_percentages` lies in [0, 100], and its
`aggregate_percentage` lies in [0, 100]. -/
theorem sample_values_in_range (load : List ℚ) (s : Sampler) (h : HostState)
    (u : UtilizationSample) (s2 : Sampler)
    (hload : ∀ x ∈ load, 0 ≤ x)
    (hok : (measureCycle load s h).1 = Except.ok (u, s2)) :
    (∀ x ∈ u.per_resource_percentages, 0 ≤ x ∧ x ≤ 100) ∧
    0 ≤ u.aggregate_percentage ∧ u.aggregate_percentage ≤ 100 := by
  rw [measureCycle_fst] at hok
  obtain ⟨hper, hagg, -, -⟩ := sample_ok_shape _ _ _ _ _ hok
  rw [applyWork_resetBaseline_busy] at hper hagg
  have hmem : ∀ x ∈ u.per_resource_percentages, 0 ≤ x ∧ x ≤ 100 := by
    rw [hper]
    intro x hx
    obtain ⟨i, -, hxi⟩ := List.mem_map.mp hx
    constructor
    · rw [← hxi]
      exact le_min (getD_nonneg load hload i) (by norm_num)
    · rw [← hxi]
      exact min_le_right _ _
  refine ⟨hmem, ?_, ?_⟩
  · rw [hagg, ← hper]
    exact (mean_bounds _ hmem).1
  · rw [hagg, ← hper]
    exact (mean_bounds _ hmem).2

/-- Claim C6 witness: a cycle whose work loads one unit fully and the
other at 30 percent. -/
theorem sample_values_in_range_witness :
    (∀ x ∈ (UtilizationSample.mk [(30 : ℚ), 100] 65).per_resource_percentages,
      0 ≤ x ∧ x ≤ 100) ∧
    0 ≤ (UtilizationSample.mk [(30 : ℚ), 100] 65).aggregate_percentage ∧
    (UtilizationSample.mk [(30 : ℚ), 100] 65).aggregate_percentage ≤ 100 :=
  sample_values_in_range [(30 : ℚ), 150] Sampler.init ⟨2, [0, 0], true⟩
    (UtilizationSample.mk [(30 : ℚ), 100] 65) ⟨SamplerState.Idle⟩
    (by decide) (by norm_num [measureCycle, begin_window, sample, applyWork, resetBaseline, queryPerUnit, queryAggregate, clampPct, List.range_succ, List.getD_cons_zero, List.getD_cons_succ])

/-- Claim C7: the length of a returned sample's `per_resource_percentages`
equals the number of resource units detected on the host at the time the
sample is taken. -/
theorem sample_length_eq_units (load : List ℚ) (s : Sampler) (h : HostState)
    (u : UtilizationSample) (s2 : Sampler)
    (hok : (measureCycle load s h).1 = Except.ok (u, s2)) :
    u.per_resource_percentages.length = (measureCycle load s h).2.units ∧
    u.per_resource_percentages.length = h.units := by
  rw [measureCycle_fst] at hok
  obtain ⟨hper, -, -, -⟩ := sample_ok_shape _ _ _ _ _ hok
  rw [applyWork_resetBaseline_busy] at hper
  have hlen : u.per_resource_percentages.length = h.units := by
    rw [hper, List.length_map, List.length_range]
  exact ⟨hlen, hlen⟩

/-- Claim C7 witness: a three-unit host yields a three-element sequence. -/
theorem sample_length_eq_units_witness :
    (UtilizationSample.mk [(10 : ℚ), 20, 30] 20).per_resource_percentages.length =
      (measureCycle [(10 : ℚ), 20, 30] Sampler.init
        ⟨3, [0, 0, 0], true⟩).2.units ∧
    (UtilizationSample.mk [(10 : ℚ), 20, 30] 20).per_resource_percentages.length =
      (3 : Nat) :=
  sample_length_eq_units [(10 : ℚ), 20, 30] Sampler.init ⟨3, [0, 0, 0], true⟩
    (UtilizationSample.mk [(10 : ℚ), 20, 30] 20) ⟨SamplerState.Idle⟩
    (by norm_num [measureCycle, begin_window, sample, applyWork, resetBaseline, queryPerUnit, queryAggregate, clampPct, List.range_succ, List.getD_cons_zero, List.getD_cons_succ])

/-- Claim C3: across two sequential, strictly paired measurement cycles on
the same sampler, each returned sample reflects only the work performed
after its own `begin_window`: each cycle's per-unit values are determined
by that cycle's own load alone, and the second cycle's outcome equals what
a cycle measuring the same load from the original host would produce,
independently of the first cycle's work. -/
theorem cycles_independent (l1 l2 : List ℚ) (s : Sampler) (h : HostState)
    (u1 u2 : UtilizationSample) (s1 s2 : Sampler)
    (hc1 : (measureCycle l1 s h).1 = Except.ok (u1, s1))
    (hc2 : (measureCycle l2 s1 (measureCycle l1 s h).2).1 =
      Except.ok (u2, s2)) :
    u1.per_resource_percentages =
      (List.range h.units).map (fun i => min (l1.getD i 0) 100) ∧
    u2.per_resource_percentages =
      (List.range h.units).map (fun i => min (l2.getD i 0) 100) ∧
    (measureCycle l2 s1 (measureCycle l1 s h).2).1 =
      (measureCycle l2 Sampler.init h).1 := by
  rw [measureCycle_fst] at hc1
  obtain ⟨hp1, -, -, -⟩ := sample_ok_shape _ _ _ _ _ hc1
  rw [applyWork_resetBaseline_busy] at hp1
  have heq : (measureCycle l2 s1 (measureCycle l1 s h).2).1 =
      (measureCycle l2 Sampler.init h).1 := rfl
  refine ⟨hp1, ?_, heq⟩
  rw [heq, measureCycle_fst] at hc2
  obtain ⟨hp2, -, -, -⟩ := sample_ok_shape _ _ _ _ _ hc2
  rw [applyWork_resetBaseline_busy] at hp2
  exact hp2

/-- Claim C3 witness: two cycles with loads 30 and 60 on a one-unit host. -/
theorem cycles_independent_witness :
    (UtilizationSample.mk [(30 : ℚ)] 30).per_resource_percentages =
      (List.range (1 : Nat)).map
        (fun i => min (([(30 : ℚ)]).getD i 0) 100) ∧
    (UtilizationSample.mk [(60 : ℚ)] 60).per_resource_percentages =
      (List.range (1 : Nat)).map
        (fun i => min (([(60 : ℚ)]).getD i 0) 100) ∧
    (measureCycle [(60 : ℚ)] ⟨SamplerState.Idle⟩
        (measureCycle [(30 : ℚ)] Sampler.init ⟨1, [0], true⟩).2).1 =
      (measureCycle [(60 : ℚ)] Sampler.init ⟨1, [0], true⟩).1 :=
  cycles_independent [(30 : ℚ)] [(60 : ℚ)] Sampler.init ⟨1, [0], true⟩
    (UtilizationSample.mk [(30 : ℚ)] 30) (UtilizationSample.mk [(60 : ℚ)] 60)
    ⟨SamplerState.Idle⟩ ⟨SamplerState.Idle⟩
    (by norm_num [measureCycle, begin_window, sample, applyWork,
      resetBaseline, queryPerUnit, queryAggregate, clampPct, List.range_succ,
      List.getD_cons_zero, List.getD_cons_succ])
    (by norm_num [measureCycle, begin_window, sample, applyWork,
      resetBaseline, queryPerUnit, queryAggregate, clampPct, List.range_succ,
      List.getD_cons_zero, List.getD_cons_succ])

/-- Claim C4: when the work returns normally with value `v`,
`run_with_measurement` opens a window, applies the work exactly once,
samples, and returns `v` unmodified together with a `UtilizationSample`
satisfying the sample invariants (aggregate is the mean of the per-unit
values, one value per host unit, each in [0, 100]). -/
theorem run_with_measurement_ok {ε α : Type} (w : Work ε α) (v : α)
    (s : Sampler) (h : HostState)
    (hres : w.result = Except.ok v) (hav : h.available = true)
    (hload : ∀ x ∈ w.load, 0 ≤ x) :
    ∃ u : UtilizationSample,
      run_with_measurement w s h =
        (Except.ok (v, u), ⟨SamplerState.Idle⟩,
          applyWork w.load (resetBaseline h)) ∧
      u.aggregate_percentage =
        u.per_resource_percentages.sum /
          (u.per_resource_percentages.length : ℚ) ∧
      u.per_resource_percentages.length = h.units ∧
      ∀ x ∈ u.per_resource_percentages, 0 ≤ x ∧ x ≤ 100 := by
  refine ⟨⟨(applyWork w.load (resetBaseline h)).busy,
    (applyWork w.load (resetBaseline h)).busy.sum /
      ((applyWork w.load (resetBaseline h)).busy.length : ℚ)⟩, ?_, rfl, ?_, ?_⟩
  · simp only [run_with_measurement, begin_window, hres, sample,
      queryPerUnit, queryAggregate]
    simp [applyWork, resetBaseline, hav]
  · simp only [applyWork_resetBaseline_busy, List.length_map,
      List.length_range]
  · simp only [applyWork_resetBaseline_busy]
    intro x hx
    obtain ⟨i, -, hxi⟩ := List.mem_map.mp hx
    constructor
    · rw [← hxi]
      exact le_min (getD_nonneg w.load hload i) (by norm_num)
    · rw [← hxi]
      exact min_le_right _ _

/-- Claim C4 witness: a work closure returning 42 with load 50 on a
one-unit available host. -/
theorem run_with_measurement_ok_witness :
    ∃ u : UtilizationSample,
      run_with_measurement
          (Work.mk (Except.ok 42) [(50 : ℚ)] : Work Unit Nat) Sampler.init
          ⟨1, [0], true⟩ =
        (Except.ok (42, u), ⟨SamplerState.Idle⟩,
          applyWork [(50 : ℚ)] (resetBaseline ⟨1, [0], true⟩)) ∧
      u.aggregate_percentage =
        u.per_resource_percentages.sum /
          (u.per_resource_percentages.length : ℚ) ∧
      u.per_resource_percentages.length = (1 : Nat) ∧
      ∀ x ∈ u.per_resource_percentages, 0 ≤ x ∧ x ≤ 100 :=
  @run_with_measurement_ok Unit Nat (Work.mk (Except.ok 42) [(50 : ℚ)]) 42
    Sampler.init ⟨1, [0], true⟩ rfl rfl (by decide)

/-- Claim C5: a work error is propagated unchanged by
`run_with_measurement` on every host — in particular when the measurement
API is available — and is never replaced by a `MeasurementError`, even
when the measurement step itself would fail; conversely, on a host whose
measurement API is unavailable, a measurement failure surfaces as a
`MeasurementError`, a constructor distinct from any work error. -/
theorem work_error_not_masked {ε α : Type} (w1 w2 : Work ε α) (e : ε)
    (v : α) (s : Sampler) (h hu : HostState)
    (h1 : w1.result = Except.error e)
    (h2 : w2.result = Except.ok v) (hun : hu.available = false) :
    (run_with_measurement w1 s h).1 = Except.error (RunError.workErr e) ∧
    (run_with_measurement w2 s hu).1 =
      Except.error (RunError.measErr MeasurementError.apiUnavailable) ∧
    ∀ (e2 : ε) (m : MeasurementError),
      (RunError.workErr e2 : RunError ε) ≠ RunError.measErr m := by
  refine ⟨?_, ?_, fun e2 m hcontra => RunError.noConfusion hcontra⟩
  · simp [run_with_measurement, begin_window, h1]
  · simp only [run_with_measurement, begin_window, h2, sample]
    simp [applyWork, resetBaseline, hun]

/-- Claim C5 witness: work error 7 propagates unchanged on a host whose
measurement API is available, and the ok-result work on an unavailable
host surfaces the distinct measurement error. -/
theorem work_error_not_masked_witness :
    (run_with_measurement
        (Work.mk (Except.error 7) ([] : List ℚ) : Work ℕ ℕ)
        Sampler.init ⟨1, [(0 : ℚ)], true⟩).1 =
      Except.error (RunError.workErr 7) ∧
    (run_with_measurement
        (Work.mk (Except.ok 1) ([] : List ℚ) : Work ℕ ℕ)
        Sampler.init ⟨1, [(0 : ℚ)], false⟩).1 =
      Except.error (RunError.measErr MeasurementError.apiUnavailable) ∧
    (RunError.workErr 7 : RunError ℕ) ≠
      RunError.measErr MeasurementError.apiUnavailable := by
  have t := @work_error_not_masked ℕ ℕ
    (Work.mk (Except.error 7) ([] : List ℚ))
    (Work.mk (Except.ok 1) ([] : List ℚ)) 7 1 Sampler.init
    ⟨1, [(0 : ℚ)], true⟩ ⟨1, [(0 : ℚ)], false⟩ rfl rfl rfl
  exact ⟨t.1, t.2.1, t.2.2 7 MeasurementError.apiUnavailable⟩

/-- Claim C8: the sampler obeys the two-state machine: `begin_window`
transitions any state to `WindowOpen`; a successful `sample` only happens
from `WindowOpen` (so it is paired with its own preceding `begin_window`)
and transitions back to `Idle`; `sample` from `Idle` fails; and a second
consecutive `sample` without an intervening `begin_window` fails. -/
theorem sampler_state_machine (w w2 : MeasurementWindow) (s : Sampler)
    (h h2 h3 : HostState) :
    (begin_window s h).2.1.state = SamplerState.WindowOpen ∧
    (∀ u s', sample w s h = Except.ok (u, s') →
      s.state = SamplerState.WindowOpen ∧ s'.state = SamplerState.Idle) ∧
    (s.state = SamplerState.Idle →
      ∃ e, sample w s h = Except.error e) ∧
    (∀ u s', sample w s h2 = Except.ok (u, s') →
      ∃ e, sample w2 s' h3 = Except.error e) := by
  refine ⟨rfl, ?_, fun hs => sample_idle_error w s h hs, ?_⟩
  · intro u s' hok
    obtain ⟨-, -, hopen, hs'⟩ := sample_ok_shape _ _ _ _ _ hok
    exact ⟨hopen, by rw [hs']⟩
  · intro u s' hok
    obtain ⟨-, -, -, hs'⟩ := sample_ok_shape _ _ _ _ _ hok
    exact sample_idle_error w2 s' h3 (by rw [hs'])

/-- Claim C8 witness: a successful sample from an open window lands in
`Idle`, and a sample from `Idle` fails. -/
theorem sampler_state_machine_witness :
    ((Sampler.mk SamplerState.WindowOpen).state = SamplerState.WindowOpen ∧
      (Sampler.mk SamplerState.Idle).state = SamplerState.Idle) ∧
    (∃ e, sample MeasurementWindow.mk (Sampler.mk SamplerState.Idle)
      ⟨1, [(0 : ℚ)], true⟩ = Except.error e) := by
  have t := sampler_state_machine MeasurementWindow.mk MeasurementWindow.mk
    (Sampler.mk SamplerState.WindowOpen) ⟨1, [(0 : ℚ)], true⟩
    ⟨1, [(0 : ℚ)], true⟩ ⟨1, [(0 : ℚ)], true⟩
  have t2 := sampler_state_machine MeasurementWindow.mk MeasurementWindow.mk
    (Sampler.mk SamplerState.Idle) ⟨1, [(0 : ℚ)], true⟩
    ⟨1, [(0 : ℚ)], true⟩ ⟨1, [(0 : ℚ)], true⟩
  have hpair := t.2.1 ⟨[(0 : ℚ)], 0⟩ ⟨SamplerState.Idle⟩
    (by norm_num [sample, queryPerUnit, queryAggregate])
  exact ⟨⟨hpair.1, hpair.2⟩, t2.2.2.1 rfl⟩

/-- Claim C9: `begin_window` immediately followed by `sample` with no
intervening work returns normally: the sample has defined (zero) per-unit
values and a zero aggregate, and no error is raised. -/
theorem immediate_sample_ok (s : Sampler) (h : HostState)
    (hav : h.available = true) :
    sample (begin_window s h).1 (begin_window s h).2.1
        (begin_window s h).2.2 =
      Except.ok (⟨List.replicate h.units 0, 0⟩, ⟨SamplerState.Idle⟩) := by
  simp only [begin_window, sample, resetBaseline, queryPerUnit,
    queryAggregate]
  simp [hav, List.sum_replicate]

/-- Claim C9 witness: an immediate sample on a two-unit host with stale
nonzero counters yields the zero sample. -/
theorem immediate_sample_ok_witness :
    sample (begin_window Sampler.init ⟨2, [(50 : ℚ), 50], true⟩).1
        (begin_window Sampler.init ⟨2, [(50 : ℚ), 50], true⟩).2.1
        (begin_window Sampler.init ⟨2, [(50 : ℚ), 50], true⟩).2.2 =
      Except.ok (⟨List.replicate 2 (0 : ℚ), 0⟩, ⟨SamplerState.Idle⟩) :=
  immediate_sample_ok Sampler.init ⟨2, [(50 : ℚ), 50], true⟩ rfl

end UtilizationSampler

namespace KerasModel

lemma foldl_add_dense (m : Model) (l : Layer) (n : Nat) :
    (List.range n).foldl (fun acc _ => acc.add l) m =
      { m with layers := m.layers ++ List.replicate n l } := by
  induction n with
  | zero => simp
  | succ k ih =>
      rw [List.range_succ, List.foldl_append, ih]
      simp [Model.add, List.replicate_succ']

/-- Claim C10: for every n_layers and n_nodes, `create_model` returns a
compiled Sequential model whose layer sequence is exactly one Flatten
layer over a 28x28 input, then n_layers Dense layers of n_nodes relu
units, then one final Dense layer of 10 softmax units; n_layers = 0
yields a model with no hidden layers. -/
theorem create_model_layer_sequence (n_layers n_nodes : Nat) :
    (create_model n_layers n_nodes).layers =
      Layer.flatten (28, 28) ::
        (List.replicate n_layers (Layer.dense n_nodes "relu") ++
          [Layer.dense 10 "softmax"]) ∧
    (create_model n_layers n_nodes).compiled = true ∧
    (create_model 0 n_nodes).layers =
      [Layer.flatten (28, 28), Layer.dense 10 "softmax"] := by
  refine ⟨?_, ?_, ?_⟩ <;>
  · simp only [create_model]
    rw [foldl_add_dense]
    simp [Sequential.empty, Model.add, Model.compile]

end KerasModel
